import Mathlib

/-!
# Verification of the Ayiah media-scraper identification core

A shallow embedding, in Lean 4, of the scraper core of the Ayiah media
server: the filename parser (`src/scraper/parser/filename.rs` and
`patterns.rs`), the match ranker (`src/scraper/matcher.rs`), the provider
aggregator (`src/scraper/manager.rs`) and the three concrete metadata
providers (TMDB, AniList, Bangumi under `src/scraper/provider/`).

Modelling conventions:
* Rust `i32`/`i64` values become `Int` (no score computation comes near the
  overflow boundary), `usize` becomes `Nat`.
* Rust `f64` fields (`rating`, `popularity`) and the floating-point
  similarity arithmetic are modelled over `ℚ`.  The only float operations
  the embedded code performs are exact small-integer divisions,
  comparisons against integer thresholds, `min` with `1.0`, and a final
  `as i32` truncation of a provably nonnegative value (= floor); every
  verified property is insensitive to f64 rounding.  A float NaN makes all
  of the code's `>` comparisons false, which coincides with the behaviour
  of a small rational such as `0`, so `Option ℚ` covers all reachable
  behaviours of `Option<f64>`.
* Rust strings become Lean `String` (sequences of Unicode scalar values);
  positions are character positions.  The character classes of the regex
  patterns (`\d`, `\s`, `\w`, case folding) are modelled on their ASCII
  fragment (`Char.isDigit`, `Char.isWhitespace`, `Char.toLower`); every
  concrete string evaluated in a proof stays inside that fragment, except
  for the CJK characters, whose code-point ranges are modelled exactly.
* Each regex is embedded as an executable matcher with the regex crate's
  leftmost-first semantics, specialised to the concrete pattern.
-/

namespace Ayiah

/-! ## Basic enums (src/scraper/types/media.rs, parser/patterns.rs, matcher.rs) -/

/-- Media type classification (`MediaType` in types/media.rs). -/
inductive MediaType
  | unknown
  | movie
  | tv
  | anime
deriving DecidableEq

/-- Parser hint about the media type (`MediaHint` in parser/patterns.rs). -/
inductive MediaHint
  | unknown
  | movie
  | tvShow
  | anime
deriving DecidableEq

/-- Match confidence level (`Confidence` in matcher.rs, discriminants 0–4). -/
inductive Confidence
  | none
  | low
  | medium
  | high
  | exact
deriving DecidableEq

/-- The explicit discriminant of a `Confidence` value; Rust derives
`Ord` on the enum, which orders by this discriminant. -/
def Confidence.toNat : Confidence → Nat
  | .none => 0
  | .low => 1
  | .medium => 2
  | .high => 3
  | .exact => 4

/-! ## Data model (types/media.rs, parser/filename.rs) -/

/-- Unified search result from any provider (`MediaInfo`). -/
structure MediaInfo where
  id : String
  title : String
  original_title : Option String
  alt_titles : List String
  media_type : MediaType
  year : Option Int
  poster_url : Option String
  overview : Option String
  rating : Option ℚ
  provider : String
  popularity : Option ℚ
deriving DecidableEq

/-- `MediaInfo::new` -- required fields, everything else empty. -/
def MediaInfo.new (id title provider : String) : MediaInfo where
  id := id
  title := title
  original_title := none
  alt_titles := []
  media_type := .unknown
  year := none
  poster_url := none
  overview := none
  rating := none
  provider := provider
  popularity := none

/-- `MediaInfo::all_titles`: primary title, then original title (if any),
then the alternative titles. -/
def MediaInfo.all_titles (info : MediaInfo) : List String :=
  [info.title]
    ++ (match info.original_title with | some orig => [orig] | none => [])
    ++ info.alt_titles

/-- Parsed information from a media filename (`ParsedMedia`). -/
structure ParsedMedia where
  title : String
  original_title : String
  year : Option Int
  season : Option Int
  episode : Option Int
  resolution : Option String
  quality : Option String
  codec : Option String
  release_group : Option String
  hint : MediaHint
deriving DecidableEq

/-- `ParsedMedia::default`. -/
def ParsedMedia.default : ParsedMedia where
  title := ""
  original_title := ""
  year := none
  season := none
  episode := none
  resolution := none
  quality := none
  codec := none
  release_group := none
  hint := .unknown

/-! ## String helpers shared by the matcher and the parser -/

/-- Worker for whitespace splitting: accumulates the current word
(reversed) and emits words at whitespace runs; no empty words. -/
def splitWSAux : List Char → List Char → List (List Char)
  | [], acc => if acc.isEmpty then [] else [acc.reverse]
  | c :: cs, acc =>
    if c.isWhitespace then
      if acc.isEmpty then splitWSAux cs [] else acc.reverse :: splitWSAux cs []
    else splitWSAux cs (c :: acc)

/-- Rust `str::split_whitespace`: whitespace-separated words, no empties. -/
def splitWhitespace (s : String) : List String :=
  (splitWSAux s.data []).map String.mk

/-- Whether the first list is a prefix of the second. -/
def listIsPrefixOf : List Char → List Char → Bool
  | [], _ => true
  | _ :: _, [] => false
  | a :: as, b :: bs => a == b && listIsPrefixOf as bs

/-- Whether `needle` occurs contiguously inside the second list
(Rust `str::contains` with a literal pattern). -/
def listIsSubstring (needle : List Char) : List Char → Bool
  | [] => needle.isEmpty
  | c :: t => listIsPrefixOf needle (c :: t) || listIsSubstring needle t

/-! ## Matcher (src/scraper/matcher.rs) -/

/-- Breakdown of how the score was calculated (`ScoreBreakdown`). -/
structure ScoreBreakdown where
  title_score : Int
  year_score : Int
  type_score : Int
  provider_score : Int
  popularity_score : Int
deriving DecidableEq

/-- A scored match result (`ScoredMatch`). -/
structure ScoredMatch where
  info : MediaInfo
  score : Int
  confidence : Confidence
  breakdown : ScoreBreakdown
deriving DecidableEq

namespace Matcher

/-- `Matcher::normalize_title`: lowercase, keep only alphanumerics and
whitespace, split on whitespace and re-join with single spaces. -/
def normalize_title (title : String) : String :=
  let cs := (title.data.map Char.toLower).filter
    (fun c => c.isAlphanum || c.isWhitespace)
  String.intercalate " " (splitWhitespace (String.mk cs))

/-- `Matcher::string_similarity`: 1 on equal strings, 0 if either is
empty, else Jaccard similarity of the whitespace-split word sets plus a
0.2 substring-containment bonus, capped at 1. -/
def string_similarity (a b : String) : ℚ :=
  if a = b then 1
  else if a.isEmpty || b.isEmpty then 0
  else
    let words_a := (splitWhitespace a).toFinset
    let words_b := (splitWhitespace b).toFinset
    let inter := (words_a ∩ words_b).card
    let unionCard := (words_a ∪ words_b).card
    if unionCard = 0 then 0
    else
      let jaccard : ℚ := (inter : ℚ) / (unionCard : ℚ)
      let contains_bonus : ℚ :=
        if listIsSubstring b.data a.data || listIsSubstring a.data b.data
        then 1 / 5 else 0
      min (jaccard + contains_bonus) 1

/-- The loop body of `Matcher::score_title`: an exact normalized match
returns 40 immediately, otherwise the best similarity-derived score is
tracked.  The `as i32` cast truncates toward zero, which on the
(provably nonnegative) similarity value equals the floor. -/
def score_title_loop (query_normalized : String) : List String → Int → Int
  | [], best_score => best_score
  | title :: rest, best_score =>
    let title_normalized := normalize_title title
    if title_normalized = query_normalized then 40
    else
      score_title_loop query_normalized rest
        (max best_score ⌊string_similarity title_normalized query_normalized * 40⌋)

/-- `Matcher::score_title` (0–40 points). -/
def score_title (titles : List String) (query : String) : Int :=
  score_title_loop (normalize_title query) titles 0

/-- `Matcher::score_year` (0–20 points). -/
def score_year : Option Int → Option Int → Int
  | some a, some b =>
    match (a - b).natAbs with
    | 0 => 20
    | 1 => 15
    | 2 => 10
    | _ => 0
  | none, none => 10
  | _, _ => 5

/-- `Matcher::score_type` (0–20 points); the arms are tried in the
source's order. -/
def score_type : MediaType → MediaHint → Int
  | .movie, .movie => 20
  | .tv, .tvShow => 20
  | .anime, .anime => 20
  | .tv, .anime => 15
  | .anime, .tvShow => 15
  | _, .unknown => 10
  | _, _ => 0

/-- `Matcher::score_provider` (0–10 points). -/
def score_provider (provider : String) (media_type : MediaType) : Int :=
  if provider = "anilist" ∧ media_type = .anime then 10
  else if provider = "bangumi" ∧ media_type = .anime then 8
  else if provider = "tmdb" ∧ media_type = .movie then 10
  else if provider = "tmdb" ∧ media_type = .tv then 9
  else if provider = "tmdb" ∧ media_type = .anime then 5
  else 5

/-- `Matcher::score_popularity` (0–10 points). -/
def score_popularity : Option ℚ → Int
  | some p => if p > 1000 then 10 else if p > 100 then 7 else if p > 10 then 5 else 3
  | none => 5

/-- `Matcher::calculate_confidence`: a decent title match is required;
then the total is bucketed. -/
def calculate_confidence (total_score : Int) (breakdown : ScoreBreakdown) : Confidence :=
  if breakdown.title_score < 20 then .none
  else if 90 ≤ total_score ∧ total_score ≤ 100 then .exact
  else if 75 ≤ total_score ∧ total_score ≤ 89 then .high
  else if 55 ≤ total_score ∧ total_score ≤ 74 then .medium
  else if 35 ≤ total_score ∧ total_score ≤ 54 then .low
  else .none

/-- `Matcher::score_match`: the five components, their sum, and the
bucketed confidence. -/
def score_match (info : MediaInfo) (parsed : ParsedMedia) : ScoredMatch :=
  let breakdown : ScoreBreakdown :=
    { title_score := score_title info.all_titles parsed.title
      year_score := score_year info.year parsed.year
      type_score := score_type info.media_type parsed.hint
      provider_score := score_provider info.provider info.media_type
      popularity_score := score_popularity info.popularity }
  let total_score := breakdown.title_score + breakdown.year_score
    + breakdown.type_score + breakdown.provider_score + breakdown.popularity_score
  { info := info
    score := total_score
    confidence := calculate_confidence total_score breakdown
    breakdown := breakdown }

end Matcher

/-! ### A stable descending sort

Rust's `sort_by` is a stable sort; `Matcher::rank` sorts with the
comparator `b.score.cmp(&a.score)` (score descending) and
`ScraperManager::search_all` sorts providers with
`b.priority_for(t).cmp(&a.priority_for(t))` (priority descending).
A stable sort for a total comparator is unique, so the insertion sort
below (each element is placed after all already-placed elements whose
key is at least its own) computes exactly the source's result. -/

/-- Insert `x` after every element whose key is ≥ its own. -/
def insertByDesc (key : α → Int) (x : α) : List α → List α
  | [] => [x]
  | y :: ys => if key x ≤ key y then y :: insertByDesc key x ys else x :: y :: ys

/-- Stable sort, key descending, ties in input order. -/
def stableSortByDesc (key : α → Int) (l : List α) : List α :=
  l.foldl (fun acc x => insertByDesc key x acc) []

namespace Matcher

/-- `Matcher::rank`: score every candidate, then stable-sort by score
descending. -/
def rank (results : List MediaInfo) (parsed : ParsedMedia) : List ScoredMatch :=
  stableSortByDesc (fun m => m.score)
    (results.map (fun info => score_match info parsed))

/-- `Matcher::best_match`: the top-ranked candidate if its confidence is
at least Medium. -/
def best_match (results : List MediaInfo) (parsed : ParsedMedia) : Option ScoredMatch :=
  match rank results parsed with
  | [] => none
  | m :: _ => if Confidence.medium.toNat ≤ m.confidence.toNat then some m else none

end Matcher

/-! ## Filename parser (src/scraper/parser/patterns.rs, filename.rs)

Each regex of `Patterns::new` is embedded as an executable matcher over
`List Char` with the regex crate's leftmost-first semantics.  A matcher
examines one starting position; `findFirst` scans the positions left to
right, which is exactly the engine's leftmost search.  Where the concrete
pattern admits backtracking (bounded repetitions followed by a required
character), the matcher implements the residual deterministic behaviour,
justified arm by arm in comments. -/

/-- Scan positions left to right, returning the first position at which
the position-matcher succeeds (leftmost-first regex search). -/
def findFirst (m : List Char → Option α) : List Char → Option (Nat × α)
  | [] => (m []).map fun a => (0, a)
  | c :: t =>
    match m (c :: t) with
    | some a => some (0, a)
    | none => (findFirst m t).map fun p => (p.1 + 1, p.2)

/-- Decimal value of a list of ASCII digits. -/
def digitsToNat (l : List Char) : Nat :=
  l.foldl (fun acc c => acc * 10 + (c.toNat - 48)) 0

/-- Rust `str::parse::<i32>()` as an `Option`: optional sign, one or more
ASCII digits, value within the `i32` range. -/
def parseI32 (s : String) : Option Int :=
  let core : Int → List Char → Option Int := fun sign digits =>
    if digits.isEmpty ∨ ¬ digits.all (·.isDigit) then none
    else
      let v : Int := sign * (digitsToNat digits : Int)
      if -(2 ^ 31) ≤ v ∧ v ≤ 2 ^ 31 - 1 then some v else none
  match s.data with
  | '+' :: t => core 1 t
  | '-' :: t => core (-1) t
  | t => core 1 t

namespace Patterns

/-- Case-insensitive literal: `lit` (given lowercased) matched at the
head; returns the matched length. -/
def matchCILit (lit : List Char) (l : List Char) : Option Nat :=
  if listIsPrefixOf lit (l.map Char.toLower) then some lit.length else none

/-- The first successful alternative — the regex alternation tried in
list order at a fixed position. -/
def firstSome : List (Option α) → Option α
  | [] => none
  | some a :: _ => some a
  | none :: t => firstSome t

/-- `(?i)(480p|576p|720p|1080p|2160p|4[kK]|UHD)` at one position;
alternatives tried in the pattern's order. -/
def matchResolutionAt (l : List Char) : Option Nat :=
  firstSome
    [matchCILit "480p".data l, matchCILit "576p".data l, matchCILit "720p".data l,
     matchCILit "1080p".data l, matchCILit "2160p".data l,
     matchCILit "4k".data l, matchCILit "uhd".data l]

/-- `WEB[-.]?DL` / `WEB[-.]?Rip` at one position (case-insensitive).
If a separator is present but the tail does not follow it, the
zero-width alternative of `[-.]?` cannot succeed either (the separator
is not a letter), so no further backtracking arises. -/
def matchWebAt (tailLit : List Char) (l : List Char) : Option Nat :=
  if listIsPrefixOf "web".data (l.map Char.toLower) then
    match l.drop 3 with
    | c :: rest2 =>
      if c = '-' ∨ c = '.' then
        if listIsPrefixOf tailLit (rest2.map Char.toLower)
        then some (3 + 1 + tailLit.length) else none
      else if listIsPrefixOf tailLit ((c :: rest2).map Char.toLower)
        then some (3 + tailLit.length) else none
    | [] => none
  else none

/-- The quality/source alternation of `Patterns::new`, alternatives in
the pattern's order. -/
def matchQualityAt (l : List Char) : Option Nat :=
  firstSome
    [matchCILit "hdtv".data l, matchWebAt "dl".data l, matchWebAt "rip".data l,
     matchCILit "bluray".data l, matchCILit "bdrip".data l,
     matchCILit "brrip".data l, matchCILit "dvdrip".data l,
     matchCILit "hdcam".data l, matchCILit "cam".data l,
     matchCILit "ts".data l, matchCILit "tc".data l,
     matchCILit "scr".data l, matchCILit "r5".data l,
     matchCILit "dvdscr".data l, matchCILit "dvdr".data l,
     matchCILit "remux".data l]

/-- `H\.?264` / `H\.?265` at one position: if a dot is present but no
digits follow it, the dotless alternative sees the dot and fails too. -/
def matchHNumAt (digits : List Char) (l : List Char) : Option Nat :=
  match l with
  | c :: rest =>
    if c = 'H' ∨ c = 'h' then
      match rest with
      | '.' :: rest2 =>
        if listIsPrefixOf digits rest2 then some (2 + digits.length) else none
      | _ => if listIsPrefixOf digits rest then some (1 + digits.length) else none
    else none
  | [] => none

/-- The codec alternation of `Patterns::new`, alternatives in the
pattern's order. -/
def matchCodecAt (l : List Char) : Option Nat :=
  firstSome
    [matchCILit "x264".data l, matchCILit "x265".data l,
     matchHNumAt "264".data l, matchHNumAt "265".data l,
     matchCILit "hevc".data l, matchCILit "avc".data l,
     matchCILit "xvid".data l, matchCILit "divx".data l,
     matchCILit "vp9".data l, matchCILit "av1".data l]

/-- `[A-Fa-f0-9]`. -/
def isHexDigit (c : Char) : Bool :=
  c.isDigit || ('a' ≤ c ∧ c ≤ 'f') || ('A' ≤ c ∧ c ≤ 'F')

/-- `\[[A-Fa-f0-9]{8}\]` at one position (the CRC32-hash bracket). -/
def matchHashAt (l : List Char) : Option Nat :=
  match l with
  | '[' :: rest =>
    let hex := rest.take 8
    if hex.length = 8 ∧ hex.all isHexDigit ∧ (rest.drop 8).head? = some ']'
    then some 10 else none
  | _ => none

/-- The bracket-cleanup alternation `\[[^\]]*\]|\([^)]*\)|\{[^}]*\}` at
one position.  A negated class cannot match its closing character, so
the greedy inner repetition deterministically runs to the first closer,
which must then be present. -/
def matchBracketsAt (l : List Char) : Option Nat :=
  match l with
  | c :: rest =>
    if c = '[' then
      let inner := rest.takeWhile (fun x => x ≠ ']')
      if (rest.drop inner.length).head? = some ']' then some (inner.length + 2) else none
    else if c = '(' then
      let inner := rest.takeWhile (fun x => x ≠ ')')
      if (rest.drop inner.length).head? = some ')' then some (inner.length + 2) else none
    else if c = Char.ofNat 0x7b then
      let inner := rest.takeWhile (fun x => x ≠ Char.ofNat 0x7d)
      if (rest.drop inner.length).head? = some (Char.ofNat 0x7d)
      then some (inner.length + 2) else none
    else none
  | [] => none

/-- `^\[([^\]]+)\]` -- the anchored leading release-group bracket;
returns the captured group contents.  The match, when present, spans the
first `length + 2` characters. -/
def releaseGroupStart (l : List Char) : Option (List Char) :=
  match l with
  | '[' :: rest =>
    let inner := rest.takeWhile (fun x => x ≠ ']')
    if 1 ≤ inner.length ∧ (rest.drop inner.length).head? = some ']'
    then some inner else none
  | _ => none

/-- `(?i)[Ss](\d{1,2})[Ee](\d{1,3})` at one position.  The digit run
after `S` must itself end within 2 characters: shorter prefixes of a
longer run are followed by a digit, never by `E`, so backtracking inside
`\d{1,2}` cannot succeed. -/
def matchSeasonEpisodeAt (l : List Char) : Option (List Char × List Char) :=
  match l with
  | c :: rest =>
    if c = 'S' ∨ c = 's' then
      let ds := rest.takeWhile (·.isDigit)
      if 1 ≤ ds.length ∧ ds.length ≤ 2 then
        match rest.drop ds.length with
        | e :: rest2 =>
          if e = 'E' ∨ e = 'e' then
            let es := (rest2.takeWhile (·.isDigit)).take 3
            if 1 ≤ es.length then some (ds, es) else none
          else none
        | [] => none
      else none
    else none
  | [] => none

/-- `(?i)(\d{1,2})[xX](\d{1,3})` at one position; same backtracking
argument as for the season/episode pattern. -/
def matchSeasonXEpisodeAt (l : List Char) : Option (List Char × List Char) :=
  let ds := l.takeWhile (·.isDigit)
  if 1 ≤ ds.length ∧ ds.length ≤ 2 then
    match l.drop ds.length with
    | x :: rest2 =>
      if x = 'x' ∨ x = 'X' then
        let es := (rest2.takeWhile (·.isDigit)).take 3
        if 1 ≤ es.length then some (ds, es) else none
      else none
    | [] => none
  else none

/-- `(?:v\d)?(?:\s|$|\[)` -- the tail of the dash-episode pattern.  If
`v` plus digit is consumed but the final class fails, the zero-width
alternative of `(?:v\d)?` sees the `v` and fails as well. -/
def dashTailOK (l : List Char) : Bool :=
  match l with
  | [] => true
  | 'v' :: d :: rest =>
    if d.isDigit then
      match rest with
      | [] => true
      | c :: _ => c.isWhitespace || c = '['
    else false
  | c :: _ => c.isWhitespace || c = '['

/-- `[-–]\s*(\d{2,3})(?:v\d)?(?:\s|$|\[)` at one position.  Shorter
prefixes of the digit run are followed by a digit, on which the tail
fails, so the run must have length exactly 2 or 3. -/
def matchEpisodeDashAt (l : List Char) : Option (List Char) :=
  match l with
  | c :: rest =>
    if c = '-' ∨ c = '–' then
      let rest2 := rest.dropWhile (·.isWhitespace)
      let ds := rest2.takeWhile (·.isDigit)
      if 2 ≤ ds.length ∧ ds.length ≤ 3 ∧ dashTailOK (rest2.drop ds.length)
      then some ds else none
    else none
  | [] => none

/-- `(?i)(?:E|EP|Ep)\.?(\d{1,3})` at one position: the one-letter
alternative is tried first, as the engine does. -/
def matchEpisodeOnlyAt (l : List Char) : Option (List Char) :=
  match l with
  | c :: rest =>
    if c = 'E' ∨ c = 'e' then
      let branch1 : Option (List Char) :=
        match rest with
        | '.' :: rest2 =>
          let ds := (rest2.takeWhile (·.isDigit)).take 3
          if 1 ≤ ds.length then some ds else none
        | _ =>
          let ds := (rest.takeWhile (·.isDigit)).take 3
          if 1 ≤ ds.length then some ds else none
      match branch1 with
      | some ds => some ds
      | none =>
        match rest with
        | p :: rest2 =>
          if p = 'P' ∨ p = 'p' then
            match rest2 with
            | '.' :: rest3 =>
              let ds := (rest3.takeWhile (·.isDigit)).take 3
              if 1 ≤ ds.length then some ds else none
            | _ =>
              let ds := (rest2.takeWhile (·.isDigit)).take 3
              if 1 ≤ ds.length then some ds else none
          else none
        | [] => none
    else none
  | [] => none

/-- `(?:v\d)?\]` -- the tail of the bracket-episode pattern. -/
def bracketTailOK (l : List Char) : Bool :=
  match l with
  | ']' :: _ => true
  | 'v' :: d :: ']' :: _ => d.isDigit
  | _ => false

/-- `\[(\d{2,3})(?:v\d)?\]` at one position. -/
def matchEpisodeBracketAt (l : List Char) : Option (List Char) :=
  match l with
  | '[' :: rest =>
    let ds := rest.takeWhile (·.isDigit)
    if 2 ≤ ds.length ∧ ds.length ≤ 3 ∧ bracketTailOK (rest.drop ds.length)
    then some ds else none
  | _ => none

/-- `\((\d{4})\)` at one position (fixed repetition, no backtracking). -/
def matchYearParensAt (l : List Char) : Option (List Char) :=
  match l with
  | '(' :: a :: b :: c :: d :: ')' :: _ =>
    if a.isDigit ∧ b.isDigit ∧ c.isDigit ∧ d.isDigit then some [a, b, c, d] else none
  | _ => none

/-- A regex word character (ASCII fragment of `\w`). -/
def isWordChar (c : Char) : Bool := c.isAlphanum || c = '_'

/-- `(19|20)\d{2}\b` matched at the head of `l`; the left boundary `\b`
is checked by the caller. -/
def yearHere : List Char → Option (List Char)
  | a :: b :: c :: d :: rest =>
    if ((a = '1' ∧ b = '9') ∨ (a = '2' ∧ b = '0')) ∧ c.isDigit ∧ d.isDigit
       ∧ (rest.head?.all fun e => ! isWordChar e)
    then some [a, b, c, d] else none
  | _ => none

/-- Leftmost match of `\b(19|20)\d{2}\b`; the flag records whether the
previous character was a word character (initially false: the start of
the string is a boundary). -/
def findYear : List Char → Bool → Option (List Char)
  | [], _ => none
  | c :: t, prevWord =>
    match (if prevWord then none else yearHere (c :: t)) with
    | some ds => some ds
    | none => findYear t (isWordChar c)

end Patterns

/-- `Regex::replace_all` with a literal replacement: every
non-overlapping leftmost match is replaced; scanning resumes after the
match.  All patterns used with it match at least one character, so the
`some 0` arm is unreachable and treated as no match. -/
def replaceAll (m : List Char → Option Nat) (repl : List Char) (l : List Char) : List Char :=
  match l with
  | [] => []
  | c :: t =>
    match m (c :: t) with
    | some (len + 1) => repl ++ replaceAll m repl (t.drop len)
    | _ => c :: replaceAll m repl t
termination_by l.length
decreasing_by
  · simp only [List.length_cons, List.length_drop]
    omega
  · simp

/-- Position of the first occurrence of `needle` (Rust `str::find` with a
literal pattern). -/
def findSubstringPos (needle : List Char) (l : List Char) : Option Nat :=
  (findFirst (fun s => if listIsPrefixOf needle s then some () else none) l).map (·.1)

namespace Parser

open Patterns

/-- `Parser::extract_episode_info`: the episode patterns tried in order
of specificity, first hit wins; returns (season, episode, match start). -/
def extract_episode_info (filename : List Char) :
    Option Int × Option Int × Option Nat :=
  match findFirst matchSeasonEpisodeAt filename with
  | some (pos, ds, es) => (parseI32 (String.mk ds), parseI32 (String.mk es), some pos)
  | none =>
  match findFirst matchSeasonXEpisodeAt filename with
  | some (pos, ds, es) => (parseI32 (String.mk ds), parseI32 (String.mk es), some pos)
  | none =>
  match findFirst matchEpisodeDashAt filename with
  | some (pos, es) => (some 1, parseI32 (String.mk es), some pos)
  | none =>
  match findFirst matchEpisodeOnlyAt filename with
  | some (pos, es) => (some 1, parseI32 (String.mk es), some pos)
  | none =>
  match findFirst matchEpisodeBracketAt filename with
  | some (pos, es) => (some 1, parseI32 (String.mk es), some pos)
  | none => (none, none, none)

/-- `Parser::extract_year`: prefer a parenthesized year in [1900, 2099],
else the first bare 19xx/20xx word, also range-checked. -/
def extract_year (filename : List Char) : Option Int :=
  let parens : Option Int :=
    match findFirst matchYearParensAt filename with
    | some (_, ds) =>
      match parseI32 (String.mk ds) with
      | some y => if 1900 ≤ y ∧ y ≤ 2099 then some y else none
      | none => none
    | none => none
  match parens with
  | some y => some y
  | none =>
    match findYear filename false with
    | some ds =>
      match parseI32 (String.mk ds) with
      | some y => if 1900 ≤ y ∧ y ≤ 2099 then some y else none
      | none => none
    | none => none

/-- `Parser::determine_hint`. -/
def determine_hint (result : ParsedMedia) (filename : List Char) : MediaHint :=
  let has_anime_group :=
    result.release_group.isSome ∧ (releaseGroupStart filename).isSome
  let has_dash_episode := (findFirst matchEpisodeDashAt filename).isSome
  let has_japanese := filename.any fun c =>
    (0x3040 ≤ c.toNat ∧ c.toNat ≤ 0x309F)
    ∨ (0x30A0 ≤ c.toNat ∧ c.toNat ≤ 0x30FF)
    ∨ (0x4E00 ≤ c.toNat ∧ c.toNat ≤ 0x9FFF)
  if has_anime_group ∧ has_dash_episode then .anime
  else if has_japanese then .anime
  else if result.season.isSome ∧ result.episode.isSome then
    if result.season = some 1 ∧ has_dash_episode then .anime else .tvShow
  else if result.year.isSome ∧ result.episode.isNone then .movie
  else .unknown

/-- `Parser::extract_title`. -/
def extract_title (filename : List Char) (title_end_pos : Option Nat)
    (result : ParsedMedia) : String :=
  let groupEnd : Nat :=
    match releaseGroupStart filename with
    | some g => g.length + 2
    | none => 0
  let title1 :=
    if (releaseGroupStart filename).isSome then filename.drop groupEnd else filename
  let title2 :=
    match title_end_pos with
    | some pos =>
      let adjusted := if result.release_group.isSome then pos - groupEnd else pos
      if adjusted < title1.length then title1.take adjusted else title1
    | none =>
      match result.year with
      | some y =>
        let yearParens := '(' :: (toString y).data ++ [')']
        match findSubstringPos yearParens title1 with
        | some pos => title1.take pos
        | none =>
          match findSubstringPos (toString y).data title1 with
          | some pos => title1.take pos
          | none => title1
      | none => title1
  let title3 := replaceAll matchBracketsAt [' '] title2
  let title4 := replaceAll matchResolutionAt [' '] title3
  let title5 := replaceAll matchQualityAt [' '] title4
  let title6 := replaceAll matchCodecAt [' '] title5
  let title7 := title6.map fun c => if c = '.' ∨ c = '_' ∨ c = '-' then ' ' else c
  (String.mk (collapseWS title7 false)).trim
where
  /-- The whitespace-collapsing filter of `extract_title`: a whitespace
  character is kept only when the previously examined character was not
  whitespace. -/
  collapseWS : List Char → Bool → List Char
  | [], _ => []
  | c :: t, prev_space =>
    if c.isWhitespace then
      if prev_space then collapseWS t true else c :: collapseWS t true
    else c :: collapseWS t false

/-- `Parser::parse_filename`. -/
def parse_filename (filename : String) : ParsedMedia :=
  let l := filename.data
  let release_group : Option String :=
    match releaseGroupStart l with
    | some g =>
      if (findFirst matchHashAt ('[' :: g ++ [']'])).isSome
         ∨ (findFirst matchResolutionAt g).isSome
      then none else some (String.mk g)
    | none => none
  let resolution : Option String :=
    (findFirst matchResolutionAt l).map fun p =>
      String.mk (((l.drop p.1).take p.2).map Char.toUpper)
  let quality : Option String :=
    (findFirst matchQualityAt l).map fun p => String.mk ((l.drop p.1).take p.2)
  let codec : Option String :=
    (findFirst matchCodecAt l).map fun p =>
      String.mk (((l.drop p.1).take p.2).map Char.toUpper)
  let seasonEpisodePos := extract_episode_info l
  let year := extract_year l
  let result0 : ParsedMedia :=
    { title := ""
      original_title := filename
      year := year
      season := seasonEpisodePos.1
      episode := seasonEpisodePos.2.1
      resolution := resolution
      quality := quality
      codec := codec
      release_group := release_group
      hint := .unknown }
  { result0 with
      hint := determine_hint result0 l
      title := extract_title l seasonEpisodePos.2.2 result0 }

end Parser

/-! ## Properties of the stable descending sort -/

theorem mem_insertByDesc {key : α → Int} {x b : α} {l : List α} :
    b ∈ insertByDesc key x l ↔ b = x ∨ b ∈ l := by
  induction l with
  | nil => simp [insertByDesc]
  | cons y ys ih =>
    by_cases h : key x ≤ key y
    · simp only [insertByDesc, if_pos h, List.mem_cons, ih]
      tauto
    · simp only [insertByDesc, if_neg h, List.mem_cons]

theorem insertByDesc_perm (key : α → Int) (x : α) (l : List α) :
    (insertByDesc key x l).Perm (x :: l) := by
  induction l with
  | nil => simp [insertByDesc]
  | cons y ys ih =>
    by_cases h : key x ≤ key y
    · simp only [insertByDesc, if_pos h]
      exact (ih.cons y).trans (List.Perm.swap x y ys)
    · simp [insertByDesc, h]

theorem stableSortByDesc_perm (key : α → Int) (l : List α) :
    (stableSortByDesc key l).Perm l := by
  suffices h : ∀ acc : List α,
      (l.foldl (fun acc x => insertByDesc key x acc) acc).Perm (acc ++ l) by
    simpa [stableSortByDesc] using h []
  induction l with
  | nil => intro acc; simp
  | cons x xs ih =>
    intro acc
    have h1 : (x :: xs).foldl (fun acc x => insertByDesc key x acc) acc
        = xs.foldl (fun acc x => insertByDesc key x acc) (insertByDesc key x acc) := rfl
    rw [h1]
    refine ((ih _).trans ?_)
    refine ((insertByDesc_perm key x acc).append_right xs).trans ?_
    exact List.perm_middle.symm

theorem mem_stableSortByDesc {key : α → Int} {x : α} {l : List α} :
    x ∈ stableSortByDesc key l ↔ x ∈ l :=
  (stableSortByDesc_perm key l).mem_iff

theorem pairwise_insertByDesc {key : α → Int} {x : α} {l : List α}
    (h : l.Pairwise fun a b => key b ≤ key a) :
    (insertByDesc key x l).Pairwise fun a b => key b ≤ key a := by
  induction l with
  | nil => simp [insertByDesc]
  | cons y ys ih =>
    rw [List.pairwise_cons] at h
    by_cases hxy : key x ≤ key y
    · simp only [insertByDesc, if_pos hxy, List.pairwise_cons]
      refine ⟨fun b hb => ?_, ih h.2⟩
      rcases mem_insertByDesc.1 hb with rfl | hb
      · exact hxy
      · exact h.1 b hb
    · simp only [insertByDesc, if_neg hxy, List.pairwise_cons]
      refine ⟨fun b hb => ?_, h.1, h.2⟩
      rcases List.mem_cons.1 hb with rfl | hb
      · omega
      · have := h.1 b hb
        omega

theorem stableSortByDesc_pairwise (key : α → Int) (l : List α) :
    (stableSortByDesc key l).Pairwise fun a b => key b ≤ key a := by
  suffices h : ∀ acc : List α, (acc.Pairwise fun a b => key b ≤ key a) →
      ((l.foldl (fun acc x => insertByDesc key x acc) acc).Pairwise
        fun a b => key b ≤ key a) by
    exact h [] (by simp)
  induction l with
  | nil => intro acc hacc; simpa using hacc
  | cons x xs ih => intro acc hacc; exact ih _ (pairwise_insertByDesc hacc)

theorem filter_insertByDesc (key : α → Int) (s : Int) (x : α) (l : List α)
    (hsort : l.Pairwise fun a b => key b ≤ key a) :
    (insertByDesc key x l).filter (fun a => key a == s)
      = if key x == s then l.filter (fun a => key a == s) ++ [x]
        else l.filter (fun a => key a == s) := by
  induction l with
  | nil =>
    by_cases hx : key x == s <;> simp [insertByDesc, List.filter, hx]
  | cons y ys ih =>
    rw [List.pairwise_cons] at hsort
    by_cases hxy : key x ≤ key y
    · simp only [insertByDesc, if_pos hxy, List.filter_cons]
      rw [ih hsort.2]
      by_cases hy : key y == s <;> by_cases hx : key x == s <;> simp [hy, hx]
    · simp only [insertByDesc, if_neg hxy, List.filter_cons]
      by_cases hx : key x == s
      · have hxs : key x = s := by simpa using hx
        have hnil : (ys.filter fun a => key a == s) = [] := by
          refine List.filter_eq_nil_iff.2 fun a ha => ?_
          have := hsort.1 a ha
          simp only [beq_iff_eq]
          omega
        have hy : ¬ (key y == s) = true := by
          simp only [beq_iff_eq]
          omega
        simp [hx, hy, hnil]
      · simp [hx]

theorem filter_stableSortByDesc (key : α → Int) (s : Int) (l : List α) :
    (stableSortByDesc key l).filter (fun a => key a == s)
      = l.filter (fun a => key a == s) := by
  suffices h : ∀ acc : List α, (acc.Pairwise fun a b => key b ≤ key a) →
      ((l.foldl (fun acc x => insertByDesc key x acc) acc).filter
          (fun a => key a == s))
        = acc.filter (fun a => key a == s) ++ l.filter (fun a => key a == s) by
    simpa [stableSortByDesc] using h [] (by simp)
  induction l with
  | nil => intro acc hacc; simp
  | cons x xs ih =>
    intro acc hacc
    have hfold : (x :: xs).foldl (fun acc x => insertByDesc key x acc) acc
        = xs.foldl (fun acc x => insertByDesc key x acc) (insertByDesc key x acc) := rfl
    rw [hfold, ih _ (pairwise_insertByDesc hacc),
      filter_insertByDesc key s x acc hacc, List.filter_cons]
    by_cases hx : key x == s <;> simp [hx]

/-! ## Matcher component bounds -/

namespace Matcher

theorem string_similarity_nonneg (a b : String) : 0 ≤ string_similarity a b := by
  unfold string_similarity
  dsimp only
  split_ifs with h1 h2 h3 h4
  · norm_num
  · norm_num
  · norm_num
  · refine le_min ?_ (by norm_num)
    positivity
  · refine le_min ?_ (by norm_num)
    positivity

theorem string_similarity_le_one (a b : String) : string_similarity a b ≤ 1 := by
  unfold string_similarity
  dsimp only
  split_ifs with h1 h2 h3 h4
  · norm_num
  · norm_num
  · norm_num
  · exact min_le_right _ _
  · exact min_le_right _ _

theorem floor_similarity_bounds (a b : String) :
    0 ≤ ⌊string_similarity a b * 40⌋ ∧ ⌊string_similarity a b * 40⌋ ≤ 40 := by
  constructor
  · exact Int.floor_nonneg.2 (mul_nonneg (string_similarity_nonneg a b) (by norm_num))
  · have h : string_similarity a b * 40 ≤ ((40 : Int) : ℚ) := by
      have := string_similarity_le_one a b
      push_cast
      nlinarith
    calc ⌊string_similarity a b * 40⌋ ≤ ⌊((40 : Int) : ℚ)⌋ := Int.floor_le_floor h
      _ = 40 := Int.floor_intCast 40

theorem score_title_loop_bounds (qn : String) (ts : List String) (best : Int)
    (h0 : 0 ≤ best) (h40 : best ≤ 40) :
    0 ≤ score_title_loop qn ts best ∧ score_title_loop qn ts best ≤ 40 := by
  induction ts generalizing best with
  | nil => simpa [score_title_loop] using ⟨h0, h40⟩
  | cons t ts ih =>
    rw [score_title_loop]
    split_ifs
    · norm_num
    · refine ih _ (le_trans h0 (le_max_left _ _)) (max_le h40 ?_)
      exact (floor_similarity_bounds _ _).2

theorem score_title_bounds (titles : List String) (query : String) :
    0 ≤ score_title titles query ∧ score_title titles query ≤ 40 :=
  score_title_loop_bounds _ titles 0 le_rfl (by norm_num)

theorem score_year_bounds (a b : Option Int) :
    0 ≤ score_year a b ∧ score_year a b ≤ 20 := by
  rcases a with _ | a <;> rcases b with _ | b <;>
    simp only [score_year] <;> try norm_num
  split <;> norm_num

theorem score_type_bounds (mt : MediaType) (h : MediaHint) :
    0 ≤ score_type mt h ∧ score_type mt h ≤ 20 := by
  cases mt <;> cases h <;> simp [score_type]

theorem score_provider_bounds (p : String) (mt : MediaType) :
    5 ≤ score_provider p mt ∧ score_provider p mt ≤ 10 := by
  unfold score_provider
  split_ifs <;> norm_num

theorem score_popularity_bounds (p : Option ℚ) :
    3 ≤ score_popularity p ∧ score_popularity p ≤ 10 := by
  rcases p with _ | q <;> simp only [score_popularity] <;> try norm_num
  split_ifs <;> norm_num

theorem score_match_score (info : MediaInfo) (parsed : ParsedMedia) :
    (score_match info parsed).score
      = (score_match info parsed).breakdown.title_score
        + (score_match info parsed).breakdown.year_score
        + (score_match info parsed).breakdown.type_score
        + (score_match info parsed).breakdown.provider_score
        + (score_match info parsed).breakdown.popularity_score := rfl

theorem score_match_breakdown (info : MediaInfo) (parsed : ParsedMedia) :
    (score_match info parsed).breakdown.title_score
        = score_title info.all_titles parsed.title
      ∧ (score_match info parsed).breakdown.year_score
        = score_year info.year parsed.year
      ∧ (score_match info parsed).breakdown.type_score
        = score_type info.media_type parsed.hint
      ∧ (score_match info parsed).breakdown.provider_score
        = score_provider info.provider info.media_type
      ∧ (score_match info parsed).breakdown.popularity_score
        = score_popularity info.popularity :=
  ⟨rfl, rfl, rfl, rfl, rfl⟩

theorem score_match_confidence (info : MediaInfo) (parsed : ParsedMedia) :
    (score_match info parsed).confidence
      = calculate_confidence (score_match info parsed).score
          (score_match info parsed).breakdown := rfl

theorem score_match_bounds (info : MediaInfo) (parsed : ParsedMedia) :
    0 ≤ (score_match info parsed).score ∧ (score_match info parsed).score ≤ 100 := by
  obtain ⟨ht, hy, htp, hp, hpop⟩ := score_match_breakdown info parsed
  rw [score_match_score, ht, hy, htp, hp, hpop]
  obtain ⟨h1, h2⟩ := score_title_bounds info.all_titles parsed.title
  obtain ⟨h3, h4⟩ := score_year_bounds info.year parsed.year
  obtain ⟨h5, h6⟩ := score_type_bounds info.media_type parsed.hint
  obtain ⟨h7, h8⟩ := score_provider_bounds info.provider info.media_type
  obtain ⟨h9, h10⟩ := score_popularity_bounds info.popularity
  omega

/-- Every element of `Matcher::rank`'s output is the scored match of a
candidate from the input. -/
theorem mem_rank {results : List MediaInfo} {parsed : ParsedMedia} {m : ScoredMatch}
    (hm : m ∈ rank results parsed) :
    ∃ info ∈ results, m = score_match info parsed := by
  have h1 : m ∈ results.map fun info => score_match info parsed :=
    mem_stableSortByDesc.1 hm
  obtain ⟨info, hinfo, heq⟩ := List.mem_map.1 h1
  exact ⟨info, hinfo, heq.symm⟩

end Matcher

/-! ## Claims about the matcher -/

/-- C2: every `ScoredMatch` produced by `Matcher::rank` has
`score = title + year + type + provider + popularity`, with
`title ∈ [0,40]`, `year ∈ [0,20]`, `type ∈ [0,20]`, `provider ∈ [0,10]`,
`popularity ∈ [0,10]`, and consequently `score ∈ [0,100]`. -/
theorem rank_score_sum_and_bounds (results : List MediaInfo) (parsed : ParsedMedia)
    (m : ScoredMatch) (hm : m ∈ Matcher.rank results parsed) :
    m.score = m.breakdown.title_score + m.breakdown.year_score + m.breakdown.type_score
        + m.breakdown.provider_score + m.breakdown.popularity_score
      ∧ (0 ≤ m.breakdown.title_score ∧ m.breakdown.title_score ≤ 40)
      ∧ (0 ≤ m.breakdown.year_score ∧ m.breakdown.year_score ≤ 20)
      ∧ (0 ≤ m.breakdown.type_score ∧ m.breakdown.type_score ≤ 20)
      ∧ (0 ≤ m.breakdown.provider_score ∧ m.breakdown.provider_score ≤ 10)
      ∧ (0 ≤ m.breakdown.popularity_score ∧ m.breakdown.popularity_score ≤ 10)
      ∧ (0 ≤ m.score ∧ m.score ≤ 100) := by
  obtain ⟨info, hinfo, rfl⟩ := Matcher.mem_rank hm
  obtain ⟨ht, hy, htp, hp, hpop⟩ := Matcher.score_match_breakdown info parsed
  refine ⟨Matcher.score_match_score info parsed, ?_, ?_, ?_, ?_, ?_,
    Matcher.score_match_bounds info parsed⟩
  · rw [ht]; exact Matcher.score_title_bounds info.all_titles parsed.title
  · rw [hy]; exact Matcher.score_year_bounds info.year parsed.year
  · rw [htp]; exact Matcher.score_type_bounds info.media_type parsed.hint
  · rw [hp]
    obtain ⟨h1, h2⟩ := Matcher.score_provider_bounds info.provider info.media_type
    omega
  · rw [hpop]
    obtain ⟨h1, h2⟩ := Matcher.score_popularity_bounds info.popularity
    omega

/-- A concrete candidate used by the witnesses below. -/
def sampleInfo : MediaInfo :=
  { MediaInfo.new "603" "The Matrix" "tmdb" with media_type := .movie, year := some 1999 }

/-- A concrete parsed reference used by the witnesses below. -/
def sampleParsed : ParsedMedia :=
  { ParsedMedia.default with
      title := "The Matrix"
      original_title := "The Matrix"
      year := some 1999
      hint := .movie }

/-- Witness for C2 at a concrete ranked match. -/
theorem rank_score_sum_and_bounds_witness :
    0 ≤ (Matcher.score_match sampleInfo sampleParsed).score
      ∧ (Matcher.score_match sampleInfo sampleParsed).score ≤ 100 :=
  (rank_score_sum_and_bounds [sampleInfo] sampleParsed
    (Matcher.score_match sampleInfo sampleParsed) (by decide)).2.2.2.2.2.2

/-- The bucket behaviour of `calculate_confidence` for totals that stay
within the reachable range. -/
theorem calculate_confidence_spec (total : Int) (b : ScoreBreakdown) (htot : total ≤ 100) :
    (b.title_score < 20 → Matcher.calculate_confidence total b = Confidence.none)
    ∧ (20 ≤ b.title_score →
        (90 ≤ total → Matcher.calculate_confidence total b = Confidence.exact)
        ∧ (75 ≤ total ∧ total ≤ 89 → Matcher.calculate_confidence total b = Confidence.high)
        ∧ (55 ≤ total ∧ total ≤ 74 → Matcher.calculate_confidence total b = Confidence.medium)
        ∧ (35 ≤ total ∧ total ≤ 54 → Matcher.calculate_confidence total b = Confidence.low)
        ∧ (total < 35 → Matcher.calculate_confidence total b = Confidence.none)) := by
  unfold Matcher.calculate_confidence
  constructor
  · intro h
    rw [if_pos h]
  · intro h
    rw [if_neg (by omega)]
    refine ⟨fun hs => ?_, fun hs => ?_, fun hs => ?_, fun hs => ?_, fun hs => ?_⟩ <;>
      split_ifs <;> first | rfl | omega

/-- C1: every `ScoredMatch` produced by `Matcher::rank` has confidence
None whenever its title component is below 20, regardless of total;
otherwise the total is bucketed as Exact (≥ 90), High (75–89),
Medium (55–74), Low (35–54) and None below 35. -/
theorem rank_confidence_buckets (results : List MediaInfo) (parsed : ParsedMedia)
    (m : ScoredMatch) (hm : m ∈ Matcher.rank results parsed) :
    (m.breakdown.title_score < 20 → m.confidence = Confidence.none)
    ∧ (20 ≤ m.breakdown.title_score →
        (90 ≤ m.score → m.confidence = Confidence.exact)
        ∧ (75 ≤ m.score ∧ m.score ≤ 89 → m.confidence = Confidence.high)
        ∧ (55 ≤ m.score ∧ m.score ≤ 74 → m.confidence = Confidence.medium)
        ∧ (35 ≤ m.score ∧ m.score ≤ 54 → m.confidence = Confidence.low)
        ∧ (m.score < 35 → m.confidence = Confidence.none)) := by
  obtain ⟨info, hinfo, rfl⟩ := Matcher.mem_rank hm
  rw [Matcher.score_match_confidence]
  exact calculate_confidence_spec _ _ (Matcher.score_match_bounds info parsed).2

/-- Witness for C1: a concrete ranked match with title 40 and total 95
gets confidence Exact. -/
theorem rank_confidence_buckets_witness :
    (Matcher.score_match sampleInfo sampleParsed).confidence = Confidence.exact :=
  ((rank_confidence_buckets [sampleInfo] sampleParsed
    (Matcher.score_match sampleInfo sampleParsed) (by decide)).2 (by decide)).1 (by decide)

/-- C3: a candidate with exactly matching normalized title, the same
(present) year, and a media type exactly matching the hint is scored
with confidence at least High, whatever the provider and popularity. -/
theorem exact_title_year_type_confidence_high (results : List MediaInfo)
    (parsed : ParsedMedia) (info : MediaInfo)
    (hmem : info ∈ results)
    (htitle : Matcher.normalize_title info.title = Matcher.normalize_title parsed.title)
    (hsome : parsed.year.isSome)
    (hyear : info.year = parsed.year)
    (htype : (info.media_type = MediaType.movie ∧ parsed.hint = MediaHint.movie)
      ∨ (info.media_type = MediaType.tv ∧ parsed.hint = MediaHint.tvShow)
      ∨ (info.media_type = MediaType.anime ∧ parsed.hint = MediaHint.anime)) :
    Confidence.high.toNat ≤ (Matcher.score_match info parsed).confidence.toNat
    ∧ Matcher.score_match info parsed ∈ Matcher.rank results parsed := by
  constructor
  · obtain ⟨ht, hy, htp, hp, hpop⟩ := Matcher.score_match_breakdown info parsed
    have htitle40 : (Matcher.score_match info parsed).breakdown.title_score = 40 := by
      rw [ht]
      unfold Matcher.score_title
      have hcons : info.all_titles
          = info.title
            :: ((match info.original_title with | some orig => [orig] | none => [])
              ++ info.alt_titles) := rfl
      rw [hcons, Matcher.score_title_loop]
      rw [if_pos htitle]
    have hyear20 : (Matcher.score_match info parsed).breakdown.year_score = 20 := by
      obtain ⟨y, hval⟩ := Option.isSome_iff_exists.1 hsome
      rw [hy, hyear, hval]
      simp [Matcher.score_year]
    have htype20 : (Matcher.score_match info parsed).breakdown.type_score = 20 := by
      rcases htype with ⟨h1, h2⟩ | ⟨h1, h2⟩ | ⟨h1, h2⟩ <;> rw [htp, h1, h2] <;> rfl
    obtain ⟨hp1, hp2⟩ := Matcher.score_provider_bounds info.provider info.media_type
    obtain ⟨hq1, hq2⟩ := Matcher.score_popularity_bounds info.popularity
    rw [← hp] at hp1 hp2
    rw [← hpop] at hq1 hq2
    have hsum := Matcher.score_match_score info parsed
    have htotal : 88 ≤ (Matcher.score_match info parsed).score
        ∧ (Matcher.score_match info parsed).score ≤ 100 := by
      rw [hsum, htitle40, hyear20, htype20]
      omega
    rw [Matcher.score_match_confidence]
    unfold Matcher.calculate_confidence
    rw [if_neg (by omega)]
    split_ifs <;> simp [Confidence.toNat] <;> omega
  · exact mem_stableSortByDesc.2
      (List.mem_map_of_mem (fun i => Matcher.score_match i parsed) hmem)

/-- Witness for C3 at a concrete exact match. -/
theorem exact_title_year_type_confidence_high_witness :
    Confidence.high.toNat ≤ (Matcher.score_match sampleInfo sampleParsed).confidence.toNat
    ∧ Matcher.score_match sampleInfo sampleParsed ∈ Matcher.rank [sampleInfo] sampleParsed :=
  exact_title_year_type_confidence_high [sampleInfo] sampleParsed sampleInfo
    (by decide) (by decide) (by decide) (by decide) (Or.inl ⟨rfl, rfl⟩)

/-! ## Errors, search options and the provider aggregator
(src/scraper/mod.rs, provider/traits.rs, manager.rs) -/

/-- `ScraperError` (src/scraper/mod.rs).  Payload types foreign to the
embedding (reqwest/io/xml errors, durations) are dropped; the cases and
the message strings the embedded code constructs are kept. -/
inductive ScraperError
  | network
  | api (status : Nat) (message : String)
  | rateLimit
  | notFound (message : String)
  | parse (message : String)
  | cache (message : String)
  | config (message : String)
  | io
  | xml
deriving DecidableEq

/-- `SearchOptions` (provider/traits.rs). -/
structure SearchOptions where
  year : Option Int
  limit : Option Nat
  language : Option String
  media_type : Option MediaType
deriving DecidableEq

/-- `SearchOptions::new` / `default`. -/
def SearchOptions.new : SearchOptions :=
  { year := none, limit := none, language := none, media_type := none }

def SearchOptions.with_year (o : SearchOptions) (year : Option Int) : SearchOptions :=
  { o with year := year }

def SearchOptions.with_limit (o : SearchOptions) (limit : Nat) : SearchOptions :=
  { o with limit := some limit }

def SearchOptions.with_language (o : SearchOptions) (language : String) : SearchOptions :=
  { o with language := some language }

def SearchOptions.with_type (o : SearchOptions) (media_type : MediaType) : SearchOptions :=
  { o with media_type := some media_type }

/-- `ScraperConfig` (manager.rs). -/
structure ScraperConfig where
  min_confidence : Confidence
  max_results : Nat
  use_cache : Bool
  language : Option String
deriving DecidableEq

/-- The three concrete providers a manager holds. -/
inductive ProviderId
  | tmdb
  | anilist
  | bangumi
deriving DecidableEq

/-- `priority_for` of the three providers, from
tmdb/provider.rs, anilist/provider.rs and bangumi/provider.rs. -/
def priority_for : ProviderId → MediaType → Int
  | .tmdb, .movie => 100
  | .tmdb, .tv => 90
  | .tmdb, .anime => 30
  | .tmdb, .unknown => 50
  | .anilist, .anime => 100
  | .anilist, .tv => 20
  | .anilist, _ => 0
  | .bangumi, .anime => 80
  | .bangumi, _ => 0

/-- One provider as a single `search_all` call observes it: its
identity, the cache entry for `(provider.id, query, year)` if one is
present, and the outcome its `search` call would produce.  The cache key
and `SearchOptions` construction are absorbed into these two fields. -/
structure ProviderSpec where
  pid : ProviderId
  cached : Option (List MediaInfo)
  search : Except ScraperError (List MediaInfo)

/-- The hint-to-type mapping at the top of `search_all`. -/
def hintToMediaType : MediaHint → Option MediaType
  | .movie => some .movie
  | .tvShow => some .tv
  | .anime => some .anime
  | .unknown => none

namespace ScraperManager

/-- The provider ordering of `search_all`: stable sort by
`priority_for` (descending) for the hinted media type. -/
def sorted_providers (providers : List ProviderSpec) (hint : MediaHint) :
    List ProviderSpec :=
  stableSortByDesc
    (fun p => priority_for p.pid ((hintToMediaType hint).getD MediaType.unknown))
    providers

/-- What one provider contributes to the aggregate of `search_all`: the
cache entry when caching is on and one exists, else its search results,
else (on a search error, logged and swallowed) nothing. -/
def contribution (config : ScraperConfig) (p : ProviderSpec) : List MediaInfo :=
  match (if config.use_cache then p.cached else none) with
  | some cached => cached
  | none =>
    match p.search with
    | .ok results => results
    | .error _ => []

/-- `ScraperManager::search_all` over the observed provider behaviour:
providers are consulted in priority order, each appends its cache entry
or search results (per-provider errors are swallowed), and the aggregate
is truncated to `max_results` — unless it is empty, which is NotFound. -/
def search_all (config : ScraperConfig) (providers : List ProviderSpec)
    (query : String) (hint : MediaHint) :
    Except ScraperError (List MediaInfo) :=
  let all_results := (sorted_providers providers hint).foldl
    (fun acc p =>
      match (if config.use_cache then p.cached else none) with
      | some cached => acc ++ cached
      | none =>
        match p.search with
        | .ok results => acc ++ results
        | .error _ => acc)
    []
  if all_results.isEmpty then
    .error (.notFound ("No results found for: " ++ query))
  else
    .ok (all_results.take config.max_results)

end ScraperManager

/-! ## The three concrete providers' search pipelines
(provider/tmdb/provider.rs, anilist/provider.rs, bangumi/provider.rs,
and their api_types.rs) -/

namespace Tmdb

/-- `MovieResult` (tmdb/api_types.rs). -/
structure MovieResult where
  id : Int
  title : String
  original_title : String
  release_date : Option String
  poster_path : Option String
  backdrop_path : Option String
  overview : Option String
  vote_average : Option ℚ
  vote_count : Option Int
  popularity : Option ℚ
  original_language : Option String
  genre_ids : Option (List Int)
deriving DecidableEq

/-- `TvResult` (tmdb/api_types.rs). -/
structure TvResult where
  id : Int
  name : String
  original_name : String
  first_air_date : Option String
  poster_path : Option String
  backdrop_path : Option String
  overview : Option String
  vote_average : Option ℚ
  vote_count : Option Int
  popularity : Option ℚ
  original_language : Option String
  genre_ids : Option (List Int)
deriving DecidableEq

/-- `TmdbProvider::image_url`. -/
def image_url (path : Option String) (size : String) : Option String :=
  path.map fun p => "https://image.tmdb.org/t/p/" ++ size ++ p

/-- `TmdbProvider::movie_result_to_info`: always typed Movie. -/
def movie_result_to_info (movie : MovieResult) : MediaInfo :=
  let year := (movie.release_date.bind fun d => (d.splitOn "-").head?).bind parseI32
  { MediaInfo.new (toString movie.id) movie.title "tmdb" with
      media_type := .movie
      year := year
      original_title := some movie.original_title
      poster_url := image_url movie.poster_path "w500"
      overview := movie.overview
      rating := movie.vote_average
      popularity := movie.popularity }

/-- `TmdbProvider::tv_result_to_info`: always typed Tv. -/
def tv_result_to_info (tv : TvResult) : MediaInfo :=
  let year := (tv.first_air_date.bind fun d => (d.splitOn "-").head?).bind parseI32
  { MediaInfo.new (toString tv.id) tv.name "tmdb" with
      media_type := .tv
      year := year
      original_title := some tv.original_name
      poster_url := image_url tv.poster_path "w500"
      overview := tv.overview
      rating := tv.vote_average
      popularity := tv.popularity }

/-- The result accumulation of `TmdbProvider::search`: a Movie filter
consults the movie endpoint, Tv or Anime the TV endpoint (errors
propagated), anything else both endpoints with per-endpoint errors
swallowed. -/
def tmdb_step (options : SearchOptions)
    (movieResponse : Except ScraperError (List MovieResult))
    (tvResponse : Except ScraperError (List TvResult)) :
    Except ScraperError (List MediaInfo) :=
  match options.media_type with
  | some MediaType.movie => movieResponse.map (List.map movie_result_to_info)
  | some MediaType.tv | some MediaType.anime =>
    tvResponse.map (List.map tv_result_to_info)
  | _ =>
    .ok ((match movieResponse with
          | .ok movies => movies.map movie_result_to_info
          | .error _ => [])
      ++ (match tvResponse with
          | .ok tv => tv.map tv_result_to_info
          | .error _ => []))

/-- `TmdbProvider::search` as a function of the two endpoint outcomes:
accumulate the step results, fail NotFound when they are empty, then
apply the limit. -/
def tmdb_search (query : String) (options : SearchOptions)
    (movieResponse : Except ScraperError (List MovieResult))
    (tvResponse : Except ScraperError (List TvResult)) :
    Except ScraperError (List MediaInfo) :=
  match tmdb_step options movieResponse tvResponse with
  | .error e => .error e
  | .ok results =>
    if results.isEmpty then .error (.notFound ("No results found for: " ++ query))
    else
      .ok (match options.limit with
        | some limit => results.take limit
        | none => results)

end Tmdb

namespace AniList

/-- `Title` (anilist/api_types.rs). -/
structure AniTitle where
  romaji : Option String
  english : Option String
  native : Option String
deriving DecidableEq

/-- `CoverImage` (anilist/api_types.rs). -/
structure CoverImage where
  large : Option String
  extra_large : Option String
deriving DecidableEq

/-- The fields of `Media` (anilist/api_types.rs) that the search
pipeline reads (tags, studios, dates, characters and staff feed only the
metadata conversion). -/
structure AniMedia where
  id : Int
  title : AniTitle
  format : Option String
  status : Option String
  description : Option String
  season_year : Option Int
  episodes : Option Int
  duration : Option Int
  cover_image : Option CoverImage
  banner_image : Option String
  average_score : Option Int
  popularity : Option Int
  genres : Option (List String)
  synonyms : Option (List String)
  id_mal : Option Int
deriving DecidableEq

/-- `Page` and `SearchData` (anilist/api_types.rs). -/
structure Page where
  media : List AniMedia
deriving DecidableEq

structure SearchData where
  page : Page
deriving DecidableEq

/-- `AniListProvider::media_to_info`: always typed Anime, provider
"anilist". -/
def media_to_info (media : AniMedia) : MediaInfo :=
  let title := (media.title.english.orElse fun _ => media.title.romaji).getD ""
  let info := { MediaInfo.new (toString media.id) title "anilist" with
      media_type := MediaType.anime
      year := media.season_year
      original_title := media.title.native
      overview := media.description
      rating := media.average_score.map fun s => (s : ℚ) / 10
      popularity := media.popularity.map fun p => (p : ℚ) }
  let info := match media.cover_image with
    | some cover =>
      { info with poster_url := cover.extra_large.orElse fun _ => cover.large }
    | none => info
  let info := match media.title.romaji with
    | some romaji => { info with alt_titles := info.alt_titles ++ [romaji] }
    | none => info
  match media.synonyms with
  | some syns => { info with alt_titles := info.alt_titles ++ syns }
  | none => info

/-- `AniListProvider::search` as a function of the GraphQL query
outcome: query errors propagate, an empty media page is NotFound,
otherwise every medium is converted. -/
def anilist_search (query : String)
    (response : Except ScraperError SearchData) :
    Except ScraperError (List MediaInfo) :=
  match response with
  | .error e => .error e
  | .ok data =>
    if data.page.media.isEmpty then
      .error (.notFound ("No anime found for: " ++ query))
    else .ok (data.page.media.map media_to_info)

end AniList

namespace Bangumi

/-- `Images` (bangumi/api_types.rs). -/
structure Images where
  large : Option String
  common : Option String
  medium : Option String
  small : Option String
  grid : Option String
deriving DecidableEq

/-- `Rating` (bangumi/api_types.rs). -/
structure BgmRating where
  score : Option ℚ
  total : Option Int
deriving DecidableEq

/-- The fields of `Subject` (bangumi/api_types.rs) that the search
pipeline reads (tags and infobox feed only the metadata conversion). -/
structure Subject where
  id : Int
  subject_type : Int
  name : String
  name_cn : Option String
  summary : Option String
  date : Option String
  air_date : Option String
  images : Option Images
  eps : Option Int
  rating : Option BgmRating
deriving DecidableEq

/-- `SearchResponse` (bangumi/api_types.rs). -/
structure SearchResponse where
  list : Option (List Subject)
  results : Option Int
deriving DecidableEq

/-- `BangumiProvider::subject_to_info`: always typed Anime, provider
"bangumi". -/
def subject_to_info (subject : Subject) : MediaInfo :=
  let title := (subject.name_cn.filter fun s => ! s.isEmpty).getD subject.name
  let year := ((subject.date.orElse fun _ => subject.air_date).bind
    fun d => (d.splitOn "-").head?).bind parseI32
  let poster := subject.images.bind fun i => i.large.orElse fun _ => i.common
  let rating := subject.rating.bind fun r => r.score
  { MediaInfo.new (toString subject.id) title "bangumi" with
      media_type := MediaType.anime
      year := year
      original_title := some subject.name
      poster_url := poster
      overview := subject.summary
      rating := rating }

/-- The client-side year filter of `BangumiProvider::search`: when a
year is requested, the subject's 4-digit date prefix must parse to
exactly that year. -/
def subject_year_matches (options : SearchOptions) (s : Subject) : Bool :=
  match options.year with
  | some year =>
    let subject_year := ((s.date.orElse fun _ => s.air_date).bind
      fun d => (d.splitOn "-").head?).bind parseI32
    subject_year == some year
  | none => true

/-- `BangumiProvider::search` as a function of the REST outcome:
request errors propagate, a missing or empty list is NotFound, the year
filter applies client-side, and a filtered-to-empty list is also
NotFound. -/
def bangumi_search (query : String) (options : SearchOptions)
    (response : Except ScraperError SearchResponse) :
    Except ScraperError (List MediaInfo) :=
  match response with
  | .error e => .error e
  | .ok resp =>
    let subjects := resp.list.getD []
    if subjects.isEmpty then
      .error (.notFound ("No results found for: " ++ query))
    else
      let results := (subjects.filter (subject_year_matches options)).map subject_to_info
      if results.isEmpty then
        .error (.notFound ("No results found for: " ++ query))
      else .ok results

end Bangumi

/-! ## Claims about the parser -/

theorem char_digit_toNat {c : Char} (h : c.isDigit = true) :
    48 ≤ c.toNat ∧ c.toNat ≤ 57 := by
  simp only [Char.isDigit, decide_eq_true_eq, Bool.and_eq_true, ge_iff_le] at h
  obtain ⟨h1, h2⟩ := h
  exact ⟨h1, h2⟩

theorem all_take {p : α → Bool} {l : List α} (n : Nat) (h : l.all p = true) :
    (l.take n).all p = true := by
  rw [List.all_eq_true] at h ⊢
  exact fun a ha => h a (List.mem_of_mem_take ha)

theorem digitsToNatAux_lt (l : List Char) : ∀ acc : Nat,
    l.all (·.isDigit) = true →
    l.foldl (fun acc c => acc * 10 + (c.toNat - 48)) acc
      < (acc + 1) * 10 ^ l.length := by
  induction l with
  | nil => intro acc _; simp only [List.foldl_nil, List.length_nil, pow_zero, mul_one]; omega
  | cons c t ih =>
    intro acc hall
    rw [List.all_cons, Bool.and_eq_true] at hall
    obtain ⟨hd1, hd2⟩ := char_digit_toNat hall.1
    have hstep := ih (acc * 10 + (c.toNat - 48)) hall.2
    have hle : (acc * 10 + (c.toNat - 48) + 1) * 10 ^ t.length
        ≤ (acc + 1) * 10 ^ (t.length + 1) := by
      have hsmall : acc * 10 + (c.toNat - 48) + 1 ≤ (acc + 1) * 10 := by omega
      calc (acc * 10 + (c.toNat - 48) + 1) * 10 ^ t.length
          ≤ ((acc + 1) * 10) * 10 ^ t.length := Nat.mul_le_mul_right _ hsmall
        _ = (acc + 1) * 10 ^ (t.length + 1) := by ring
    calc (c :: t).foldl (fun acc c => acc * 10 + (c.toNat - 48)) acc
        = t.foldl (fun acc c => acc * 10 + (c.toNat - 48))
            (acc * 10 + (c.toNat - 48)) := rfl
      _ < (acc * 10 + (c.toNat - 48) + 1) * 10 ^ t.length := hstep
      _ ≤ (acc + 1) * 10 ^ (t.length + 1) := hle
      _ = (acc + 1) * 10 ^ (c :: t).length := by simp

theorem digitsToNat_lt (l : List Char) (h : l.all (·.isDigit) = true) :
    digitsToNat l < 10 ^ l.length := by
  simpa [digitsToNat] using digitsToNatAux_lt l 0 h

/-- Parsing a nonempty all-digit string of at most 3 characters always
succeeds and yields its decimal value. -/
theorem parseI32_digits (l : List Char) (hne : l ≠ [])
    (hd : l.all (·.isDigit) = true) (hlen : l.length ≤ 3) :
    parseI32 (String.mk l) = some (digitsToNat l : Int) := by
  have hlt : digitsToNat l < 1000 := by
    have h1 := digitsToNat_lt l hd
    have h2 : (10 : Nat) ^ l.length ≤ 10 ^ 3 :=
      Nat.pow_le_pow_right (by norm_num) hlen
    omega
  rcases l with _ | ⟨c, t⟩
  · exact absurd rfl hne
  · have hdc : c.isDigit = true := by
      rw [List.all_cons, Bool.and_eq_true] at hd
      exact hd.1
    obtain ⟨h48, h57⟩ := char_digit_toNat hdc
    unfold parseI32
    dsimp only
    split
    · rename_i heq
      rw [List.cons.injEq] at heq
      exact absurd heq.1 (by intro hc; rw [hc] at h48; exact absurd h48 (by decide))
    · rename_i heq
      rw [List.cons.injEq] at heq
      exact absurd heq.1 (by intro hc; rw [hc] at h48; exact absurd h48 (by decide))
    · rw [if_neg (by simp [hd]), if_pos (by push_cast; omega)]
      rw [one_mul]

theorem findFirst_some {m : List Char → Option α} {l : List Char} {pos : Nat} {a : α}
    (h : findFirst m l = some (pos, a)) : ∃ l', m l' = some a := by
  induction l generalizing pos with
  | nil =>
    unfold findFirst at h
    rcases hm : m [] with _ | a'
    · rw [hm] at h; simp at h
    · rw [hm] at h
      simp at h
      exact ⟨[], by rw [hm, h.2]⟩
  | cons c t ih =>
    unfold findFirst at h
    rcases hm : m (c :: t) with _ | a'
    · rw [hm] at h
      rcases hf : findFirst m t with _ | p
      · rw [hf] at h; simp at h
      · obtain ⟨p1, p2⟩ := p
        rw [hf] at h
        simp at h
        obtain ⟨-, rfl⟩ := h
        exact ih hf
    · rw [hm] at h
      simp at h
      exact ⟨c :: t, by rw [hm, h.2]⟩

/-- Structural facts about a successful season/episode pattern match:
the digit groups are nonempty digit runs of length ≤ 2 and ≤ 3. -/
theorem matchSeasonEpisodeAt_inv {l : List Char} {ds es : List Char}
    (h : Patterns.matchSeasonEpisodeAt l = some (ds, es)) :
    ds ≠ [] ∧ ds.length ≤ 2 ∧ ds.all (·.isDigit) = true
    ∧ es ≠ [] ∧ es.length ≤ 3 ∧ es.all (·.isDigit) = true := by
  rcases l with _ | ⟨c, rest⟩
  · exact absurd h (by simp [Patterns.matchSeasonEpisodeAt])
  · unfold Patterns.matchSeasonEpisodeAt at h
    dsimp only at h
    split_ifs at h with h1 h2
    split at h
    · rename_i e rest2 heq
      split_ifs at h with h3 h4
      rw [Option.some.injEq, Prod.mk.injEq] at h
      obtain ⟨hds, hes⟩ := h
      subst hds
      subst hes
      refine ⟨?_, h2.2, List.all_takeWhile, ?_, ?_, ?_⟩
      · rw [← List.length_pos_iff_ne_nil]
        omega
      · rw [← List.length_pos_iff_ne_nil]
        omega
      · rw [List.length_take]
        omega
      · exact all_take 3 List.all_takeWhile
    · exact absurd h (by simp)

/-- The hint computed when both season and episode are present is TvShow
or Anime. -/
theorem determine_hint_episode (result : ParsedMedia) (l : List Char)
    (hs : result.season.isSome = true) (he : result.episode.isSome = true) :
    Parser.determine_hint result l = MediaHint.tvShow
    ∨ Parser.determine_hint result l = MediaHint.anime := by
  unfold Parser.determine_hint
  dsimp only
  split_ifs with h1 h2 h3 h4 h5
  · exact Or.inr rfl
  · exact Or.inr rfl
  · exact Or.inr rfl
  · exact Or.inl rfl
  · exact absurd ⟨hs, he⟩ h3
  · exact absurd ⟨hs, he⟩ h3

/-- The hint computed when the filename contains a Hiragana/Katakana or
CJK Unified codepoint is Anime, whatever else was recognised. -/
theorem determine_hint_japanese (result : ParsedMedia) (l : List Char)
    (h : ∃ c ∈ l, (0x3040 ≤ c.toNat ∧ c.toNat ≤ 0x30FF)
        ∨ (0x4E00 ≤ c.toNat ∧ c.toNat ≤ 0x9FFF)) :
    Parser.determine_hint result l = MediaHint.anime := by
  obtain ⟨c, hc, hrange⟩ := h
  unfold Parser.determine_hint
  dsimp only
  split_ifs with h1 h2 <;>
    first
      | rfl
      | · exfalso
          apply h2
          refine List.any_eq_true.2 ⟨c, hc, ?_⟩
          simp only [decide_eq_true_eq]
          omega

/-- C6 (amended): any codepoint in U+3040–U+30FF (Hiragana and Katakana)
or U+4E00–U+9FFF (CJK Unified) in the filename forces hint Anime. -/
theorem cjk_codepoint_forces_anime_hint (s : String)
    (h : ∃ c ∈ s.data, (0x3040 ≤ c.toNat ∧ c.toNat ≤ 0x30FF)
        ∨ (0x4E00 ≤ c.toNat ∧ c.toNat ≤ 0x9FFF)) :
    (Parser.parse_filename s).hint = MediaHint.anime := by
  unfold Parser.parse_filename
  dsimp only
  exact determine_hint_japanese _ s.data h

/-- Witness for the amended C6 at a concrete Hiragana filename. -/
theorem cjk_codepoint_forces_anime_hint_witness :
    (Parser.parse_filename "こんにちは").hint = MediaHint.anime :=
  cjk_codepoint_forces_anime_hint "こんにちは" ⟨'こ', by decide, by decide⟩

/-- C6 counterexample: U+3400 lies inside the claimed range
[U+3040, U+9FFF] but outside the three ranges the code checks
(U+3040–309F, U+30A0–30FF, U+4E00–9FFF), and a filename consisting of it
alone is parsed with hint Unknown, not Anime. -/
theorem cjk_range_hint_counterexample :
    (∃ c ∈ "㐀".data, 0x3040 ≤ c.toNat ∧ c.toNat ≤ 0x9FFF)
    ∧ (Parser.parse_filename "㐀").hint ≠ MediaHint.anime := by
  constructor
  · exact ⟨'㐀', by decide, by decide⟩
  · decide

/-- The property "s contains an occurrence of S{n}E{m}" exactly as the
claim words it: some decomposition of the string around literal S/E
letters with a 1–2-digit group for n and a 1–3-digit group for m. -/
def containsSnEm (s : String) (n m : Nat) : Prop :=
  ∃ (pre post : List Char) (sc ec : Char) (ds es : List Char),
    (sc = 'S' ∨ sc = 's') ∧ (ec = 'E' ∨ ec = 'e')
    ∧ ds ≠ [] ∧ ds.length ≤ 2 ∧ ds.all (·.isDigit) = true ∧ digitsToNat ds = n
    ∧ es ≠ [] ∧ es.length ≤ 3 ∧ es.all (·.isDigit) = true ∧ digitsToNat es = m
    ∧ s.data = pre ++ sc :: (ds ++ ec :: (es ++ post))

/-- C7 counterexample: "S1E23" contains the occurrence S{1}E{2} (episode
written in one digit), yet the parser reports episode 23, because the
regex captures the greedy three-digit group of the leftmost match. -/
theorem season_episode_occurrence_counterexample :
    containsSnEm "S1E23" 1 2
    ∧ ¬ ((Parser.parse_filename "S1E23").season = some 1
        ∧ (Parser.parse_filename "S1E23").episode = some 2
        ∧ ((Parser.parse_filename "S1E23").hint = MediaHint.tvShow
            ∨ (Parser.parse_filename "S1E23").hint = MediaHint.anime)) := by
  constructor
  · exact ⟨[], ['3'], 'S', 'E', ['1'], ['2'], Or.inl rfl, Or.inl rfl,
      by decide, by decide, by decide, by decide,
      by decide, by decide, by decide, by decide, by decide⟩
  · decide

/-- C7 (amended): when the leftmost match of the season/episode regex
`(?i)[Ss](\d{1,2})[Ee](\d{1,3})` on s captures digit groups with values
n and m, the parser reports season = n, episode = m, and a hint that is
TvShow or Anime. -/
theorem season_episode_leftmost_match (s : String) (n m : Nat)
    (pos : Nat) (ds es : List Char)
    (hfind : findFirst Patterns.matchSeasonEpisodeAt s.data = some (pos, ds, es))
    (hn : digitsToNat ds = n) (hm : digitsToNat es = m) :
    (Parser.parse_filename s).season = some (n : Int)
    ∧ (Parser.parse_filename s).episode = some (m : Int)
    ∧ ((Parser.parse_filename s).hint = MediaHint.tvShow
        ∨ (Parser.parse_filename s).hint = MediaHint.anime) := by
  obtain ⟨l', hl'⟩ := findFirst_some hfind
  obtain ⟨hds_ne, hds_len, hds_dig, hes_ne, hes_len, hes_dig⟩ :=
    matchSeasonEpisodeAt_inv hl'
  have hparse_s : parseI32 (String.mk ds) = some (digitsToNat ds : Int) :=
    parseI32_digits _ hds_ne hds_dig (by omega)
  have hparse_e : parseI32 (String.mk es) = some (digitsToNat es : Int) :=
    parseI32_digits _ hes_ne hes_dig hes_len
  have hepi : Parser.extract_episode_info s.data
      = (some (digitsToNat ds : Int), some (digitsToNat es : Int), some pos) := by
    unfold Parser.extract_episode_info
    rw [hfind]
    dsimp only
    rw [hparse_s, hparse_e]
  unfold Parser.parse_filename
  dsimp only
  rw [hepi, hn, hm]
  refine ⟨rfl, rfl, ?_⟩
  exact determine_hint_episode _ s.data (by simp) (by simp)

/-- Witness for the amended C7 at a concrete filename. -/
theorem season_episode_leftmost_match_witness :
    (Parser.parse_filename "S01E02").season = some 1
    ∧ (Parser.parse_filename "S01E02").episode = some 2
    ∧ ((Parser.parse_filename "S01E02").hint = MediaHint.tvShow
        ∨ (Parser.parse_filename "S01E02").hint = MediaHint.anime) :=
  season_episode_leftmost_match "S01E02" 1 2 0 ['0', '1'] ['0', '2']
    (by decide) (by decide) (by decide)

/-! ## Claims about the aggregator -/

namespace ScraperManager

/-- The accumulation loop of `search_all` concatenates the providers'
contributions in order. -/
theorem foldl_contribution (config : ScraperConfig) (l : List ProviderSpec)
    (acc : List MediaInfo) :
    l.foldl
      (fun acc p =>
        match (if config.use_cache then p.cached else none) with
        | some cached => acc ++ cached
        | none =>
          match p.search with
          | .ok results => acc ++ results
          | .error _ => acc)
      acc
    = acc ++ (l.map (contribution config)).flatten := by
  induction l generalizing acc with
  | nil => simp
  | cons p t ih =>
    rw [List.foldl_cons, ih]
    have hstep : (match (if config.use_cache then p.cached else none) with
        | some cached => acc ++ cached
        | none =>
          match p.search with
          | .ok results => acc ++ results
          | .error _ => acc)
        = acc ++ contribution config p := by
      unfold contribution
      rcases hif : (if config.use_cache then p.cached else none) with _ | c
      · rcases hs : p.search with e | r <;> simp [hs]
      · simp
    rw [hstep]
    simp

end ScraperManager

/-- C4 (amended): `search_all` yields the NotFound error iff no cache
hit and no provider search contributed any result; otherwise it yields
Ok with the concatenated contributions truncated to `max_results`, whose
length is at most `max_results` and which is non-empty provided
`max_results > 0`. -/
theorem search_all_spec (config : ScraperConfig) (providers : List ProviderSpec)
    (query : String) (hint : MediaHint) :
    (ScraperManager.search_all config providers query hint
        = .error (.notFound ("No results found for: " ++ query))
      ↔ ∀ p ∈ providers, ScraperManager.contribution config p = [])
    ∧ (∀ r, ScraperManager.search_all config providers query hint = .ok r →
        r = ((ScraperManager.sorted_providers providers hint).map
              (ScraperManager.contribution config)).flatten.take config.max_results
        ∧ r.length ≤ config.max_results
        ∧ (0 < config.max_results → r ≠ []))
    ∧ ((∃ p ∈ providers, ScraperManager.contribution config p ≠ []) →
        ∃ r, ScraperManager.search_all config providers query hint = .ok r) := by
  have hfold := ScraperManager.foldl_contribution config
    (ScraperManager.sorted_providers providers hint) []
  set A := ((ScraperManager.sorted_providers providers hint).map
    (ScraperManager.contribution config)).flatten with hA
  have hsa : ScraperManager.search_all config providers query hint
      = if A.isEmpty then .error (.notFound ("No results found for: " ++ query))
        else .ok (A.take config.max_results) := by
    unfold ScraperManager.search_all
    dsimp only
    rw [hfold]
    simp
  have hmem : ∀ p : ProviderSpec,
      p ∈ ScraperManager.sorted_providers providers hint ↔ p ∈ providers :=
    fun p => mem_stableSortByDesc
  have hAiff : A = [] ↔ ∀ p ∈ providers, ScraperManager.contribution config p = [] := by
    rw [hA, List.flatten_eq_nil_iff]
    constructor
    · intro h p hp
      exact h _ (List.mem_map_of_mem _ ((hmem p).2 hp))
    · intro h l hl
      obtain ⟨p, hp, rfl⟩ := List.mem_map.1 hl
      exact h p ((hmem p).1 hp)
  refine ⟨?_, ?_, ?_⟩
  · rw [hsa]
    by_cases hempty : A.isEmpty
    · rw [if_pos hempty]
      exact iff_of_true rfl (hAiff.1 (List.isEmpty_iff.1 hempty))
    · rw [if_neg hempty]
      refine iff_of_false (by simp) ?_
      intro hall
      exact hempty (List.isEmpty_iff.2 (hAiff.2 hall))
  · intro r hr
    rw [hsa] at hr
    by_cases hempty : A.isEmpty
    · rw [if_pos hempty] at hr
      exact absurd hr (by simp)
    · rw [if_neg hempty] at hr
      simp only [Except.ok.injEq] at hr
      subst hr
      refine ⟨rfl, List.length_take_le _ _, ?_⟩
      intro hpos hnil
      rw [List.take_eq_nil_iff] at hnil
      rcases hnil with h0 | hAnil
      · omega
      · exact hempty (List.isEmpty_iff.2 hAnil)
  · rintro ⟨p, hp, hne⟩
    refine ⟨A.take config.max_results, ?_⟩
    rw [hsa, if_neg ?_]
    simp only [List.isEmpty_iff]
    intro hAnil
    exact hne (hAiff.1 hAnil p hp)

/-- A provider with one successful result, for the aggregator claims. -/
def managerProvider : ProviderSpec :=
  { pid := .tmdb, cached := none,
    search := .ok [MediaInfo.new "603" "The Matrix" "tmdb"] }

/-- A configuration with `max_results = 0`. -/
def zeroResultConfig : ScraperConfig :=
  { min_confidence := .medium, max_results := 0, use_cache := false, language := none }

/-- C4 counterexample: with `max_results = 0`, a provider contributes a
result (so the search is not NotFound), yet the Ok vector returned is
empty — refuting the claim's non-emptiness of the Ok result. -/
theorem search_all_ok_empty_counterexample :
    ScraperManager.contribution zeroResultConfig managerProvider ≠ []
    ∧ ScraperManager.search_all zeroResultConfig [managerProvider]
        "The Matrix" MediaHint.movie = .ok [] :=
  ⟨by decide, rfl⟩

/-- The default manager configuration (`ScraperConfig::default`). -/
def defaultConfig : ScraperConfig :=
  { min_confidence := .medium, max_results := 20, use_cache := true, language := none }

/-- Witness for the amended C4 at a concrete aggregator state. -/
theorem search_all_spec_witness :
    ([MediaInfo.new "603" "The Matrix" "tmdb"] : List MediaInfo).length
        ≤ defaultConfig.max_results
    ∧ (0 < defaultConfig.max_results →
        ([MediaInfo.new "603" "The Matrix" "tmdb"] : List MediaInfo) ≠ []) :=
  ((search_all_spec defaultConfig [managerProvider] "The Matrix" MediaHint.movie).2.1
    [MediaInfo.new "603" "The Matrix" "tmdb"] rfl).2

/-- C9: for an Unknown-hint search the providers are ordered by
`priority_for(Unknown)`: 50 for tmdb, 0 for anilist and bangumi; hence a
manager holding the three providers consults tmdb first and keeps the
insertion order of anilist and bangumi. -/
theorem unknown_hint_provider_order (ps : List ProviderSpec)
    (hperm : (ps.map ProviderSpec.pid).Perm
      [ProviderId.tmdb, ProviderId.anilist, ProviderId.bangumi]) :
    priority_for ProviderId.tmdb MediaType.unknown = 50
    ∧ priority_for ProviderId.anilist MediaType.unknown = 0
    ∧ priority_for ProviderId.bangumi MediaType.unknown = 0
    ∧ (ScraperManager.sorted_providers ps MediaHint.unknown).map ProviderSpec.pid
        = ProviderId.tmdb :: (ps.map ProviderSpec.pid).erase ProviderId.tmdb := by
  refine ⟨rfl, rfl, rfl, ?_⟩
  have hlen : ps.length = 3 := by simpa using hperm.length_eq
  rcases ps with _ | ⟨p1, ps⟩
  · simp at hlen
  rcases ps with _ | ⟨p2, ps⟩
  · simp at hlen
  rcases ps with _ | ⟨p3, ps⟩
  · simp at hlen
  rcases ps with _ | ⟨p4, ps⟩
  case cons => simp at hlen
  cases h1 : p1.pid <;> cases h2 : p2.pid <;> cases h3 : p3.pid <;>
    simp only [List.map_cons, List.map_nil, h1, h2, h3] at hperm <;>
    first
      | exact absurd hperm (by decide)
      | (simp [ScraperManager.sorted_providers, stableSortByDesc, insertByDesc,
           priority_for, hintToMediaType, h1, h2, h3, List.erase]
         <;> decide)

/-- Concrete providers (outcomes irrelevant to ordering). -/
def tmdbSpec : ProviderSpec :=
  { pid := .tmdb, cached := none, search := .error .network }

def anilistSpec : ProviderSpec :=
  { pid := .anilist, cached := none, search := .error .network }

def bangumiSpec : ProviderSpec :=
  { pid := .bangumi, cached := none, search := .error .network }

/-- Witness for C9 at a concrete insertion order. -/
theorem unknown_hint_provider_order_witness :
    (ScraperManager.sorted_providers [bangumiSpec, anilistSpec, tmdbSpec]
        MediaHint.unknown).map ProviderSpec.pid
      = ProviderId.tmdb
        :: ([bangumiSpec, anilistSpec, tmdbSpec].map ProviderSpec.pid).erase
            ProviderId.tmdb :=
  (unknown_hint_provider_order [bangumiSpec, anilistSpec, tmdbSpec] (by decide)).2.2.2

/-! ## Claims about the provider search pipelines -/

/-- C5 (amended): AniList and Bangumi never return Ok with an empty
vector and surface NotFound whenever zero usable results remain (for
Bangumi, also when the client-side year filter removes every result).
TMDB surfaces NotFound whenever the consulted endpoints yield zero
usable results, and never returns Ok with an empty vector unless
`options.limit = Some 0`, in which case truncating a non-empty result
list produces `Ok([])`. -/
theorem provider_search_empty_is_not_found :
    (∀ (query : String) (response : Except ScraperError AniList.SearchData) r,
      AniList.anilist_search query response = .ok r → r ≠ [])
    ∧ (∀ (query : String) (data : AniList.SearchData), data.page.media = [] →
        AniList.anilist_search query (.ok data)
          = .error (.notFound ("No anime found for: " ++ query)))
    ∧ (∀ (query : String) (options : SearchOptions)
        (response : Except ScraperError Bangumi.SearchResponse) r,
        Bangumi.bangumi_search query options response = .ok r → r ≠ [])
    ∧ (∀ (query : String) (options : SearchOptions) (resp : Bangumi.SearchResponse),
        (resp.list.getD []).filter (Bangumi.subject_year_matches options) = [] →
        Bangumi.bangumi_search query options (.ok resp)
          = .error (.notFound ("No results found for: " ++ query)))
    ∧ (∀ (query : String) (options : SearchOptions) mr tr,
        Tmdb.tmdb_step options mr tr = .ok [] →
        Tmdb.tmdb_search query options mr tr
          = .error (.notFound ("No results found for: " ++ query)))
    ∧ (∀ (query : String) (options : SearchOptions) mr tr r,
        options.limit ≠ some 0 →
        Tmdb.tmdb_search query options mr tr = .ok r → r ≠ []) := by
  refine ⟨?_, ?_, ?_, ?_, ?_, ?_⟩
  · intro query response r h
    rcases response with e | data
    · exact absurd h (by simp [AniList.anilist_search])
    · unfold AniList.anilist_search at h
      dsimp only at h
      split_ifs at h with hempty
      all_goals first
        | exact Except.noConfusion h
        | (simp only [Except.ok.injEq] at h
           subst h
           intro hnil
           rw [List.map_eq_nil_iff] at hnil
           exact hempty (List.isEmpty_iff.2 hnil))
  · intro query data h
    unfold AniList.anilist_search
    dsimp only
    rw [if_pos (List.isEmpty_iff.2 h)]
  · intro query options response r h
    rcases response with e | resp
    · exact absurd h (by simp [Bangumi.bangumi_search])
    · unfold Bangumi.bangumi_search at h
      dsimp only at h
      split_ifs at h with h1 h2
      all_goals first
        | exact Except.noConfusion h
        | (simp only [Except.ok.injEq] at h
           subst h
           intro hnil
           exact h2 (List.isEmpty_iff.2 hnil))
  · intro query options resp h
    unfold Bangumi.bangumi_search
    dsimp only
    by_cases h1 : (resp.list.getD []).isEmpty
    · rw [if_pos h1]
    · rw [if_neg h1, if_pos (by simp [h])]
  · intro query options mr tr h
    unfold Tmdb.tmdb_search
    rw [h]
    rfl
  · intro query options mr tr r hlimit h
    unfold Tmdb.tmdb_search at h
    split at h
    · exact absurd h (by simp)
    · rename_i results heq
      split_ifs at h with hempty
      all_goals first
        | exact Except.noConfusion h
        | (simp only [Except.ok.injEq] at h
           subst h
           rcases hl : options.limit with _ | limit
           · dsimp only
             intro hnil
             exact hempty (List.isEmpty_iff.2 hnil)
           · dsimp only
             intro hnil
             rw [List.take_eq_nil_iff] at hnil
             rcases hnil with h0 | hres
             · exact hlimit (by rw [hl, h0])
             · exact hempty (List.isEmpty_iff.2 hres))

/-- An empty Bangumi response. -/
def emptyBangumiResponse : Bangumi.SearchResponse :=
  { list := some [], results := some 0 }

/-- Witness for the amended C5: an empty Bangumi list yields NotFound. -/
theorem provider_search_empty_is_not_found_witness :
    Bangumi.bangumi_search "Frieren" SearchOptions.new (.ok emptyBangumiResponse)
      = .error (.notFound ("No results found for: " ++ "Frieren")) :=
  provider_search_empty_is_not_found.2.2.2.1 "Frieren" SearchOptions.new
    emptyBangumiResponse (by decide)

/-- A concrete TMDB movie result. -/
def movieResultSample : Tmdb.MovieResult :=
  { id := 603, title := "The Matrix", original_title := "The Matrix",
    release_date := some "1999-03-31", poster_path := none, backdrop_path := none,
    overview := none, vote_average := none, vote_count := none, popularity := none,
    original_language := none, genre_ids := none }

/-- Movie-filtered search options with `limit = Some 0`. -/
def zeroLimitOptions : SearchOptions :=
  { year := none, limit := some 0, language := none,
    media_type := some MediaType.movie }

/-- C5 counterexample: with `limit = Some 0` and a non-empty upstream
movie response, TMDB search returns Ok with an empty vector instead of
never doing so. -/
theorem tmdb_search_ok_empty_counterexample :
    Tmdb.tmdb_step zeroLimitOptions (.ok [movieResultSample]) (.ok [])
      = .ok [Tmdb.movie_result_to_info movieResultSample]
    ∧ Tmdb.tmdb_search "The Matrix" zeroLimitOptions (.ok [movieResultSample]) (.ok [])
      = .ok ([] : List MediaInfo) :=
  ⟨rfl, rfl⟩

/-- Every member of a successful TMDB search comes from the step
results. -/
theorem tmdb_search_ok_members {query : String} {options : SearchOptions}
    {mr : Except ScraperError (List Tmdb.MovieResult)}
    {tr : Except ScraperError (List Tmdb.TvResult)} {r : List MediaInfo}
    (h : Tmdb.tmdb_search query options mr tr = .ok r) :
    ∃ results, Tmdb.tmdb_step options mr tr = .ok results
      ∧ ∀ info ∈ r, info ∈ results := by
  unfold Tmdb.tmdb_search at h
  split at h
  · exact Except.noConfusion h
  · rename_i results heq
    split_ifs at h with hempty
    all_goals first
      | exact Except.noConfusion h
      | (simp only [Except.ok.injEq] at h
         subst h
         refine ⟨results, heq, ?_⟩
         intro info hinfo
         rcases hl : options.limit with _ | limit
         · rw [hl] at hinfo
           exact hinfo
         · rw [hl] at hinfo
           exact List.mem_of_mem_take hinfo)

/-- Members of the step results are typed Movie or Tv. -/
theorem tmdb_step_types {options : SearchOptions}
    {mr : Except ScraperError (List Tmdb.MovieResult)}
    {tr : Except ScraperError (List Tmdb.TvResult)} {results : List MediaInfo}
    (h : Tmdb.tmdb_step options mr tr = .ok results) :
    ∀ info ∈ results,
      info.media_type = MediaType.movie ∨ info.media_type = MediaType.tv := by
  intro info hinfo
  unfold Tmdb.tmdb_step at h
  split at h
  case h_1 =>
    rcases mr with e | ms
    · exact Except.noConfusion h
    · simp only [Except.map, Except.ok.injEq] at h
      subst h
      obtain ⟨m, hm, rfl⟩ := List.mem_map.1 hinfo
      exact Or.inl rfl
  all_goals first
    | (rcases tr with e | ts
       · exact Except.noConfusion h
       · simp only [Except.map, Except.ok.injEq] at h
         subst h
         obtain ⟨t, ht, rfl⟩ := List.mem_map.1 hinfo
         exact Or.inr rfl)
    | (simp only [Except.ok.injEq] at h
       subst h
       rcases List.mem_append.1 hinfo with hm | ht
       · rcases mr with e | ms
         · simp at hm
         · obtain ⟨m, _, rfl⟩ := List.mem_map.1 hm
           exact Or.inl rfl
       · rcases tr with e | ts
         · simp at ht
         · obtain ⟨t, _, rfl⟩ := List.mem_map.1 ht
           exact Or.inr rfl)

/-- With an Anime type filter the step reads only the TV endpoint. -/
theorem tmdb_step_anime {options : SearchOptions}
    (mr mr' : Except ScraperError (List Tmdb.MovieResult))
    (tr : Except ScraperError (List Tmdb.TvResult))
    (h : options.media_type = some MediaType.anime) :
    Tmdb.tmdb_step options mr tr = tr.map (List.map Tmdb.tv_result_to_info)
    ∧ Tmdb.tmdb_step options mr tr = Tmdb.tmdb_step options mr' tr := by
  unfold Tmdb.tmdb_step
  rw [h]
  exact ⟨rfl, rfl⟩

/-- C10: every MediaInfo returned by TMDB search is typed Movie or Tv
(never Anime or Unknown); with an Anime type filter the search consults
only the TV endpoint — the result does not depend on the movie
response — and all results are Tv-typed infos of provider "tmdb". -/
theorem tmdb_search_types (query : String) (options : SearchOptions)
    (mr mr' : Except ScraperError (List Tmdb.MovieResult))
    (tr : Except ScraperError (List Tmdb.TvResult)) :
    (∀ r, Tmdb.tmdb_search query options mr tr = .ok r →
      ∀ info ∈ r, info.media_type = MediaType.movie ∨ info.media_type = MediaType.tv)
    ∧ (options.media_type = some MediaType.anime →
        Tmdb.tmdb_search query options mr tr = Tmdb.tmdb_search query options mr' tr
        ∧ ∀ r, Tmdb.tmdb_search query options mr tr = .ok r →
            ∀ info ∈ r, info.media_type = MediaType.tv ∧ info.provider = "tmdb") := by
  constructor
  · intro r hr info hinfo
    obtain ⟨results, hstep, hsub⟩ := tmdb_search_ok_members hr
    exact tmdb_step_types hstep info (hsub info hinfo)
  · intro hanime
    constructor
    · unfold Tmdb.tmdb_search
      rw [(tmdb_step_anime mr mr' tr hanime).2]
    · intro r hr info hinfo
      obtain ⟨results, hstep, hsub⟩ := tmdb_search_ok_members hr
      rw [(tmdb_step_anime mr mr' tr hanime).1] at hstep
      rcases tr with e | ts
      · exact absurd hstep (by simp [Except.map])
      · simp only [Except.map, Except.ok.injEq] at hstep
        subst hstep
        obtain ⟨t, _, rfl⟩ := List.mem_map.1 (hsub info hinfo)
        exact ⟨rfl, rfl⟩

/-- A concrete TMDB TV result. -/
def tvResultSample : Tmdb.TvResult :=
  { id := 1396, name := "Breaking Bad", original_name := "Breaking Bad",
    first_air_date := some "2008-01-20", poster_path := none, backdrop_path := none,
    overview := none, vote_average := none, vote_count := none, popularity := none,
    original_language := none, genre_ids := none }

/-- Anime-filtered search options. -/
def animeOptions : SearchOptions :=
  { year := none, limit := none, language := none,
    media_type := some MediaType.anime }

/-- Witness for C10: the Anime-filtered search ignores the movie
response entirely. -/
theorem tmdb_search_types_witness :
    Tmdb.tmdb_search "Breaking Bad" animeOptions (.ok [movieResultSample])
        (.ok [tvResultSample])
      = Tmdb.tmdb_search "Breaking Bad" animeOptions (.error .network)
          (.ok [tvResultSample]) :=
  ((tmdb_search_types "Breaking Bad" animeOptions (.ok [movieResultSample])
    (.error .network) (.ok [tvResultSample])).2 rfl).1

/-- C8: `Matcher::rank` is a deterministic function of its inputs, its
output is sorted by score descending, and entries with equal score keep
the relative order their candidates had in the input list (the filter of
the output at any score equals the filter of the scored input). -/
theorem rank_deterministic_sorted_stable (results : List MediaInfo) (parsed : ParsedMedia) :
    Matcher.rank results parsed = Matcher.rank results parsed
    ∧ (Matcher.rank results parsed).Pairwise (fun a b => b.score ≤ a.score)
    ∧ ∀ s : Int,
        (Matcher.rank results parsed).filter (fun m => m.score == s)
          = (results.map fun info => Matcher.score_match info parsed).filter
              (fun m => m.score == s) :=
  ⟨rfl, stableSortByDesc_pairwise _ _, fun s => filter_stableSortByDesc _ s _⟩

end Ayiah
